/-
Verification of the worker job-processing pipeline of the ae_nexrender_module
repository, as a shallow embedding in Lean 4.

Embedded components (translated from the Python source):
  * src/lib/errors.py        — ErrorCategory, pattern lists, ErrorClassifier.classify
  * src/worker/supabase_client.py — claim_pending_job, mark_failed, release_job,
                                    mark_completed (the columns the claims touch)
  * src/worker/job_processor.py   — the polling status map, the polling loop,
                                    the NAS copy stage, and _handle_error
Strings, integers and JSON objects are modelled exactly; timestamps are
opaque strings (their values are never compared by the embedded code paths),
and the engine's renderProgress is modelled as an exact rational, with
Python's int() truncation made explicit.
-/
import Mathlib

namespace AeNex

/-! ## Python exception model

The classifier in src/lib/errors.py dispatches on `isinstance` against
built-in exception classes.  We model the classes that occur in the source
together with Python's (3.10+) built-in subclass hierarchy:
`ConnectionError`, `TimeoutError`, `FileNotFoundError` and `PermissionError`
are all subclasses of `OSError`; `OSError`, `ValueError`, `KeyError` and the
repository's own `NexrenderError` are subclasses of `Exception`. -/

inductive ExcClass where
  | timeoutErr
  | connectionErr
  | osErr
  | fileNotFoundErr
  | permissionErr
  | valueErr
  | keyErr
  | nexrenderErr
  | genericExc
deriving DecidableEq, Repr

/-- The ancestor chain (the class itself, then its bases up to `Exception`),
following Python 3.10+'s built-in exception hierarchy. -/
def ExcClass.ancestors : ExcClass → List ExcClass
  | .timeoutErr => [.timeoutErr, .osErr, .genericExc]
  | .connectionErr => [.connectionErr, .osErr, .genericExc]
  | .osErr => [.osErr, .genericExc]
  | .fileNotFoundErr => [.fileNotFoundErr, .osErr, .genericExc]
  | .permissionErr => [.permissionErr, .osErr, .genericExc]
  | .valueErr => [.valueErr, .genericExc]
  | .keyErr => [.keyErr, .genericExc]
  | .nexrenderErr => [.nexrenderErr, .genericExc]
  | .genericExc => [.genericExc]

/-- Python's `isinstance(e, T)` on the modelled classes. -/
def isinst (c t : ExcClass) : Bool := (ExcClass.ancestors c).contains t

/-- A raised Python exception: its class and the text `str(error)` yields. -/
structure PyError where
  cls : ExcClass
  msg : String
deriving DecidableEq, Repr

/-! ## src/lib/errors.py -/

inductive ErrorCategory where
  | RETRYABLE
  | NON_RETRYABLE
  | UNKNOWN
deriving DecidableEq, Repr

/-- The `value` of the Python str-enum (used as `category.value`). -/
def ErrorCategory.val : ErrorCategory → String
  | .RETRYABLE => "retryable"
  | .NON_RETRYABLE => "non_retryable"
  | .UNKNOWN => "unknown"

/-- RETRYABLE_PATTERNS from src/lib/errors.py (verbatim, same order). -/
def RETRYABLE_PATTERNS : List String :=
  ["connection", "timeout", "network", "unavailable", "temporary",
   "503", "502", "504", "ECONNREFUSED", "ETIMEDOUT", "ENOTFOUND"]

/-- NON_RETRYABLE_PATTERNS from src/lib/errors.py (verbatim, same order). -/
def NON_RETRYABLE_PATTERNS : List String :=
  ["not found", "404", "invalid", "permission", "unauthorized", "forbidden",
   "does not exist", "template error", "composition not found", "missing file"]

/-- Test that `p` is a prefix of `l` (on characters). -/
def listPref : List Char → List Char → Bool
  | [], _ => true
  | _ :: _, [] => false
  | a :: as, b :: bs => a == b && listPref as bs

/-- Test that `p` occurs contiguously inside `l` (on characters). -/
def listSub (p : List Char) : List Char → Bool
  | [] => p.isEmpty
  | b :: bs => listPref p (b :: bs) || listSub p bs

/-- Python's `pat in hay` substring test. -/
def strContains (hay pat : String) : Bool := listSub pat.toList hay.toList

/-- Python's `str.lower()` (character-wise; the strings the classifier sees
are ASCII or Hangul, on which `Char.toLower` agrees with Python). -/
def strLower (s : String) : String := String.mk (s.toList.map Char.toLower)

/-- Embeds `ErrorClassifier.classify` from src/lib/errors.py, lines 62-89.
The two pattern loops return the same category for every element of their
list, so they are rendered as `List.any`; the isinstance tuple tests keep
the source's order (the OSError family is tested before the
ValueError/KeyError/FileNotFoundError tuple). -/
def classify (e : PyError) : ErrorCategory :=
  let error_str := strLower e.msg
  if NON_RETRYABLE_PATTERNS.any (fun p => strContains error_str (strLower p)) then
    ErrorCategory.NON_RETRYABLE
  else if RETRYABLE_PATTERNS.any (fun p => strContains error_str (strLower p)) then
    ErrorCategory.RETRYABLE
  else if isinst e.cls .timeoutErr || isinst e.cls .connectionErr
      || isinst e.cls .osErr then
    ErrorCategory.RETRYABLE
  else if isinst e.cls .valueErr || isinst e.cls .keyErr
      || isinst e.cls .fileNotFoundErr then
    ErrorCategory.NON_RETRYABLE
  else
    ErrorCategory.UNKNOWN

/-- The label `format_message` prefixes (src/lib/errors.py, lines 105-109). -/
def ErrorCategory.label : ErrorCategory → String
  | .RETRYABLE => "[재시도 가능]"
  | .NON_RETRYABLE => "[재시도 불가]"
  | .UNKNOWN => "[분류되지 않음]"

/-- Python's `type(error).__name__` for the modelled classes. -/
def ExcClass.pyName : ExcClass → String
  | .timeoutErr => "TimeoutError"
  | .connectionErr => "ConnectionError"
  | .osErr => "OSError"
  | .fileNotFoundErr => "FileNotFoundError"
  | .permissionErr => "PermissionError"
  | .valueErr => "ValueError"
  | .keyErr => "KeyError"
  | .nexrenderErr => "NexrenderError"
  | .genericExc => "Exception"

/-- Embeds `ErrorClassifier.format_message` (src/lib/errors.py, lines 91-118); the
runtime stack trace appended under `include_traceback=True` is passed in as
the opaque string `tb`. -/
def format_message (e : PyError) (tb : String) : String :=
  (classify e).label ++ " " ++ e.cls.pyName ++ ": " ++ e.msg ++ tb

/-! ## JSON objects (`error_details`) and the queue row

`error_details` is a JSON object; the embedded code reads and writes
integer- and string-valued keys, so values are modelled by `Val`.  An
object is a key-value list; `dset` follows Python dict assignment
(replace in place when the key exists, append otherwise). -/

inductive Val where
  | int (n : ℤ)
  | str (s : String)
deriving DecidableEq, Repr

abbrev Details := List (String × Val)

/-- Lookup of `d[k]` (first binding wins; `dset` keeps keys unique). -/
def dget (d : Details) (k : String) : Option Val :=
  (d.find? (fun p => p.1 == k)).map (fun p => p.2)

/-- Python `d[k] = v`. -/
def dset (d : Details) (k : String) (v : Val) : Details :=
  if d.any (fun p => p.1 == k) then
    d.map (fun p => if p.1 == k then (k, v) else p)
  else
    d ++ [(k, v)]

/-- Python `d.get(k, default)` where an integer is expected. -/
def getInt (d : Details) (k : String) (default : ℤ) : ℤ :=
  match dget d k with
  | some (Val.int n) => n
  | _ => default

/-- One `render_queue` row, restricted to the columns the embedded code
paths read or write.  Timestamps are opaque ISO-8601 strings except
`queued_at`, whose ordering the claim query uses; ISO-8601 strings order
chronologically, modelled by a natural number. -/
structure JobRec where
  id : String
  status : String
  priority : ℤ
  queued_at : ℕ
  worker_id : Option String
  worker_host : Option String
  started_at : Option String
  completed_at : Option String
  progress : ℤ
  output_path : Option String
  error_message : Option String
  error_details : Details
deriving DecidableEq, Repr

/-! ## src/worker/supabase_client.py -/

/-- Embeds `SupabaseQueueClient.mark_failed` (lines 211-260) as the transformation
of the row it read back into the row it writes.  `update_job_status` passes
`error_message`, `error_details` and `worker_id` (and `completed_at` on the
terminal branch) through its allowed-column filter unchanged. -/
def mark_failed (job : JobRec) (error_message error_category : String)
    (should_retry : Bool) (now : String) : JobRec :=
  let ed0 := job.error_details
  let retry_count := getInt ed0 "retry_count" 0 + 1
  let max_retries := getInt ed0 "max_retries" 3
  let ed := dset (dset (dset (dset ed0 "retry_count" (Val.int retry_count))
      "max_retries" (Val.int max_retries))
      "error_category" (Val.str error_category))
      "last_error_at" (Val.str now)
  if should_retry = true ∧ retry_count < max_retries then
    { job with
      status := "pending"
      error_message := some error_message
      error_details := ed
      worker_id := none }
  else
    { job with
      status := "failed"
      error_message := some error_message
      error_details := ed
      completed_at := some now
      worker_id := none }

/-- Embeds `SupabaseQueueClient.release_job` (lines 262-286) as the row
transformation it issues. -/
def release_job (job : JobRec) (now : String) : JobRec :=
  let ed0 := job.error_details
  let recovery_count := getInt ed0 "recovery_count" 0
  let ed := dset (dset ed0 "recovery_count" (Val.int (recovery_count + 1)))
      "last_recovery_at" (Val.str now)
  { job with
    status := "pending"
    worker_id := none
    error_details := ed }

/-- Embeds `SupabaseQueueClient.mark_completed` (lines 179-209), restricted to the
modelled columns (`output_file_size`/`render_duration_ms` are attribute
columns no claim touches). -/
def mark_completed (job : JobRec) (output_path : String) (now : String) : JobRec :=
  { job with
    status := "completed"
    progress := 100
    output_path := some output_path
    completed_at := some now
    worker_id := none }

/-! ## `JobProcessor._handle_error` (src/worker/job_processor.py, 448-497) -/

/-- The row `_handle_error` writes (via `mark_failed`) once `get_job` has
returned the row `job`.  `tb` is the runtime traceback text appended by
`format_message(..., include_traceback=True)`. -/
def handle_error_written (job : JobRec) (e : PyError) (tb : String)
    (config_max_retries : ℤ) (now : String) : JobRec :=
  let category := classify e
  let message := format_message e tb
  let retry_count := getInt job.error_details "retry_count" 0
  let max_retries := getInt job.error_details "max_retries" config_max_retries
  if category = ErrorCategory.RETRYABLE ∧ retry_count < max_retries then
    mark_failed job
      ("[재시도 #" ++ toString (retry_count + 1) ++ "] " ++ message)
      category.val true now
  else
    mark_failed job message category.val false now

/-- Embeds `_handle_error` including the `get_job` fetch: given what `get_job`
returned (`none` when the row cannot be fetched), the row written back, or
`none` when `_handle_error` returns without persisting anything
(lines 464-467). -/
def handle_error (job_record : Option JobRec) (e : PyError) (tb : String)
    (config_max_retries : ℤ) (now : String) : Option JobRec :=
  match job_record with
  | none => none
  | some job => some (handle_error_written job e tb config_max_retries now)

/-- Embeds `_handle_error` acting on the whole queue store (a map from job id to
row): when `get_job job_id` yields `none` the store is untouched, otherwise
exactly the row `job_id` is rewritten. -/
def handle_error_store (store : String → Option JobRec) (job_id : String)
    (e : PyError) (tb : String) (config_max_retries : ℤ) (now : String) :
    String → Option JobRec :=
  match store job_id with
  | none => store
  | some job => fun k =>
      if k = job_id then some (handle_error_written job e tb config_max_retries now)
      else store k

/-! ## `SupabaseQueueClient.claim_pending_job` (lines 28-75)

The claim is a SELECT on one table snapshot followed by a conditional
UPDATE that may run against a later snapshot (a concurrent worker can
modify rows in between), so the embedding takes two snapshots `t1` (at
SELECT time) and `t2` (at UPDATE time). -/

/-- The strict order of `ORDER BY priority ASC, queued_at ASC`. -/
def keyLt (a b : JobRec) : Prop :=
  a.priority < b.priority ∨ (a.priority = b.priority ∧ a.queued_at < b.queued_at)

instance (a b : JobRec) : Decidable (keyLt a b) := by
  unfold keyLt
  infer_instance

/-- The reflexive order of `ORDER BY priority ASC, queued_at ASC`. -/
def keyLe (a b : JobRec) : Prop :=
  a.priority < b.priority ∨ (a.priority = b.priority ∧ a.queued_at ≤ b.queued_at)

/-- One comparison step of picking the first row of the ordered SELECT. -/
def selMin (acc : Option JobRec) (r : JobRec) : Option JobRec :=
  match acc with
  | none => some r
  | some b => if keyLt r b then some r else some b

/-- The SELECT of step 1: the single `pending` row minimal under
`(priority, queued_at)` (`.limit(1)` after the two ascending orders);
`none` when no pending row exists. -/
def selectPending (t : List JobRec) : Option JobRec :=
  (t.filter (fun r => r.status == "pending")).foldl selMin none

/-- The UPDATE payload of step 2: `preparing`, stamping `worker_id`,
`worker_host` and `started_at`. -/
def claim_update_row (r : JobRec) (worker_id worker_host now : String) : JobRec :=
  { r with
    status := "preparing"
    worker_id := some worker_id
    worker_host := some worker_host
    started_at := some now }

/-- Embeds `claim_pending_job`: SELECT on `t1`, then the UPDATE against `t2`
guarded by `.eq("id", job_id).eq("status", "pending")`; returns the new
UPDATE-time table and `update_response.data[0]` (`none` when no pending
row exists or the guarded update affected zero rows). -/
def claim_pending_job (t1 t2 : List JobRec) (worker_id worker_host now : String) :
    List JobRec × Option JobRec :=
  match selectPending t1 with
  | none => (t2, none)
  | some row =>
    let touched := fun r : JobRec => r.id == row.id && r.status == "pending"
    let t2a := t2.map (fun r =>
      if touched r then claim_update_row r worker_id worker_host now else r)
    match t2.filter touched with
    | [] => (t2a, none)
    | r :: _ => (t2a, some (claim_update_row r worker_id worker_host now))

/-! ## `JobProcessor._poll_nexrender_progress` (lines 164-241) -/

/-- Python's `int()` on an exact rational (truncation toward zero). -/
def pyInt (q : ℚ) : ℤ := if 0 ≤ q then ⌊q⌋ else ⌈q⌉

/-- The `status_map` of lines 198-208: engine state to
(internal status, progress), with `rendering` computing
`40 + int(render_progress * 0.4)`; `none` for states outside the map. -/
def nexrender_status_map (state : String) (render_progress : ℚ) :
    Option (String × ℤ) :=
  if state = "queued" then some ("rendering", 25)
  else if state = "started" then some ("rendering", 30)
  else if state = "downloading" then some ("rendering", 35)
  else if state = "rendering" then
    some ("rendering", 40 + pyInt (render_progress * 0.4))
  else if state = "encoding" then some ("encoding", 85)
  else if state = "finished" then some ("uploading", 95)
  else none

/-- The percentage handed to the progress callback by
`NexrenderClient.poll_until_complete` (src/lib/client.py, line 187):
`int(render_progress * 100)`. -/
def poll_callback_percent (render_progress : ℚ) : ℤ := pyInt (render_progress * 100)

/-- What one polling iteration observes: either a status payload
(`state`, `renderProgress`, optional `error` text) or an exception raised
inside the `try` block (a failed status query or a failed progress write). -/
inductive PollResult where
  | ok (state : String) (renderProgress : ℚ) (error : Option String)
  | exn (e : PyError)
deriving DecidableEq

/-- The `NexrenderError` raised on an engine-reported `error` state
(line 213); Python renders a missing error text as `None`. -/
def nexrender_error (errText : Option String) : PyError :=
  ⟨ExcClass.nexrenderErr, "렌더링 실패: " ++ errText.getD "None"⟩

/-- The `TimeoutError` of line 241. -/
def poll_timeout_error (job_id : String) (max_timeout : ℕ) : PyError :=
  ⟨ExcClass.timeoutErr,
   "렌더링 타임아웃 (Job " ++ job_id ++ ", " ++ toString max_timeout ++ "초 초과)"⟩

/-- The polling loop of `_poll_nexrender_progress`: `results i` is what
iteration `i` observes, `fuel` the number of iterations the
`while elapsed < max_timeout` guard still allows.  Within an iteration:
an engine `error` state raises `NexrenderError` with the engine text; a
`finished` state returns; a raised exception is re-raised when it is a
`NexrenderError` and swallowed otherwise (lines 229-236); an exhausted
guard raises `TimeoutError`.  The per-iteration progress writes are the
`nexrender_status_map` values and do not affect control flow. -/
def poll_loop (results : ℕ → PollResult) (job_id : String) (max_timeout : ℕ) :
    ℕ → ℕ → Except PyError Unit
  | _, 0 =>
    Except.error (poll_timeout_error job_id max_timeout)
  | i, fuel + 1 =>
    match results i with
    | PollResult.exn e =>
      if isinst e.cls .nexrenderErr then Except.error e
      else poll_loop results job_id max_timeout (i + 1) fuel
    | PollResult.ok state _ err =>
      if state = "error" then Except.error (nexrender_error err)
      else if state = "finished" then Except.ok ()
      else poll_loop results job_id max_timeout (i + 1) fuel

/-! ## `JobProcessor._copy_to_nas` and `_post_process` (lines 243-446) -/

/-- What one NAS copy attempt does at the file-system boundary. -/
inductive CopyOutcome where
  /-- The check `Path(nas_base).exists()` is false: the NAS directory is unreachable. -/
  | dirMissing
  /-- Copy via `shutil.copy2` succeeded and the copied file exists with size > 0. -/
  | okVerified
  /-- Copy via `shutil.copy2` raised no error but the verification read failed. -/
  | okUnverified
  /-- Copy via `shutil.copy2` raised `PermissionError`. -/
  | permError
  /-- Copy via `shutil.copy2` raised another `OSError`. -/
  | osError
deriving DecidableEq

/-- The `for attempt in range(max_retries)` body of `_copy_to_nas`:
an unreachable directory returns `None` at once, a verified copy returns
the NAS path, caught errors and failed verification fall through to the
next attempt, and an exhausted loop returns `None`. -/
def copy_to_nas_loop (nas_path : String) : List CopyOutcome → Option String
  | [] => none
  | o :: rest =>
    match o with
    | CopyOutcome.dirMissing => none
    | CopyOutcome.okVerified => some nas_path
    | CopyOutcome.okUnverified => copy_to_nas_loop nas_path rest
    | CopyOutcome.permError => copy_to_nas_loop nas_path rest
    | CopyOutcome.osError => copy_to_nas_loop nas_path rest

/-- `_copy_to_nas` (lines 382-446): `None` when no NAS path is configured
(`if not nas_base`), otherwise the attempt loop on
`Path(nas_base) / source_file.name`; `attempts` lists the outcome each
iteration would observe, one entry per attempt the loop runs
(`max_retries = 2` in the source). -/
def copy_to_nas (nas_base fname : String) (attempts : List CopyOutcome) :
    Option String :=
  if nas_base = "" then none
  else copy_to_nas_loop (nas_base ++ "/" ++ fname) attempts

/-- The tail of `_post_process` (lines 290-298) once the local artifact at
`output_path` passed the three verifications: the returned final path is
the NAS path on copy success and the local path otherwise. -/
def post_process_final_path (output_path : String) (nas_base fname : String)
    (attempts : List CopyOutcome) : String :=
  if nas_base = "" then output_path
  else
    match copy_to_nas nas_base fname attempts with
    | some nas_path => nas_path
    | none => output_path

/-! ## Helper lemmas about the JSON-object operations -/

theorem find?_map_set_ne (k kp : String) (v : Val) (h : kp ≠ k) (d : Details) :
    (d.map (fun p => if p.1 == k then (k, v) else p)).find? (fun p => p.1 == kp)
      = d.find? (fun p => p.1 == kp) := by
  induction d with
  | nil => rfl
  | cons p rest ih =>
    rw [List.map_cons]
    by_cases hp : p.1 = k
    · have hb : (p.1 == k) = true := by simp [hp]
      have hk : (k == kp) = false := by
        simp only [beq_eq_false_iff_ne]
        exact fun e => h e.symm
      have hpk : (p.1 == kp) = false := by
        simp only [beq_eq_false_iff_ne, hp]
        exact fun e => h e.symm
      rw [if_pos hb]
      simp only [List.find?_cons, hk, hpk, ih]
    · have hb : (p.1 == k) = false := by
        simp only [beq_eq_false_iff_ne]
        exact hp
      rw [if_neg (by simp [hb])]
      simp only [List.find?_cons, ih]

theorem find?_map_set_hit (k : String) (v : Val) (d : Details)
    (h : d.any (fun p => p.1 == k) = true) :
    (d.map (fun p => if p.1 == k then (k, v) else p)).find? (fun p => p.1 == k)
      = some (k, v) := by
  induction d with
  | nil => simp at h
  | cons p rest ih =>
    rw [List.map_cons]
    by_cases hp : p.1 = k
    · have hb : (p.1 == k) = true := by simp [hp]
      have hkk : (k == k) = true := by simp
      rw [if_pos hb]
      simp only [List.find?_cons, hkk]
    · have hb : (p.1 == k) = false := by
        simp only [beq_eq_false_iff_ne]
        exact hp
      have h2 : rest.any (fun p => p.1 == k) = true := by
        simpa [List.any_cons, hb] using h
      rw [if_neg (by simp [hb])]
      simp only [List.find?_cons, hb, ih h2]

theorem dget_dset_self (d : Details) (k : String) (v : Val) :
    dget (dset d k v) k = some v := by
  unfold dget dset
  by_cases h : d.any (fun p => p.1 == k) = true
  · rw [if_pos h, find?_map_set_hit k v d h]
    rfl
  · rw [if_neg h]
    have hnone : d.find? (fun p => p.1 == k) = none := by
      rw [List.find?_eq_none]
      intro x hx hcontra
      exact h (List.any_eq_true.mpr ⟨x, hx, hcontra⟩)
    rw [List.find?_append, hnone]
    simp [List.find?_cons]

theorem dget_dset_ne (d : Details) (k kp : String) (v : Val) (h : kp ≠ k) :
    dget (dset d k v) kp = dget d kp := by
  unfold dget dset
  by_cases hany : d.any (fun p => p.1 == k) = true
  · rw [if_pos hany, find?_map_set_ne k kp v h d]
  · rw [if_neg hany, List.find?_append]
    have hk : (k == kp) = false := by simp [beq_eq_false_iff_ne]; exact fun e => h e.symm
    cases hfind : d.find? (fun p => p.1 == kp) with
    | none => simp [List.find?_cons, hk]
    | some x => simp

theorem getInt_eq_of_dget (d : Details) (k : String) (n dflt : ℤ)
    (h : dget d k = some (Val.int n)) : getInt d k dflt = n := by
  unfold getInt
  rw [h]

/-! ## Helper lemmas about `mark_failed` and `release_job` -/

theorem mark_failed_error_details (job : JobRec) (m c : String) (sr : Bool)
    (now : String) :
    (mark_failed job m c sr now).error_details =
      dset (dset (dset (dset job.error_details
        "retry_count" (Val.int (getInt job.error_details "retry_count" 0 + 1)))
        "max_retries" (Val.int (getInt job.error_details "max_retries" 3)))
        "error_category" (Val.str c))
        "last_error_at" (Val.str now) := by
  simp only [mark_failed]
  split <;> rfl

theorem mark_failed_dget_other (job : JobRec) (m c : String) (sr : Bool)
    (now k : String) (h1 : k ≠ "retry_count") (h2 : k ≠ "max_retries")
    (h3 : k ≠ "error_category") (h4 : k ≠ "last_error_at") :
    dget (mark_failed job m c sr now).error_details k
      = dget job.error_details k := by
  rw [mark_failed_error_details, dget_dset_ne _ _ _ _ h4, dget_dset_ne _ _ _ _ h3,
    dget_dset_ne _ _ _ _ h2, dget_dset_ne _ _ _ _ h1]

theorem mark_failed_dget_retry_count (job : JobRec) (m c : String) (sr : Bool)
    (now : String) :
    dget (mark_failed job m c sr now).error_details "retry_count"
      = some (Val.int (getInt job.error_details "retry_count" 0 + 1)) := by
  rw [mark_failed_error_details, dget_dset_ne _ _ _ _ (by decide),
    dget_dset_ne _ _ _ _ (by decide), dget_dset_ne _ _ _ _ (by decide),
    dget_dset_self]

theorem release_job_error_details (job : JobRec) (now : String) :
    (release_job job now).error_details =
      dset (dset job.error_details
        "recovery_count" (Val.int (getInt job.error_details "recovery_count" 0 + 1)))
        "last_recovery_at" (Val.str now) := rfl

theorem release_job_dget_other (job : JobRec) (now k : String)
    (h1 : k ≠ "recovery_count") (h2 : k ≠ "last_recovery_at") :
    dget (release_job job now).error_details k = dget job.error_details k := by
  rw [release_job_error_details, dget_dset_ne _ _ _ _ h2, dget_dset_ne _ _ _ _ h1]

theorem release_job_dget_recovery_count (job : JobRec) (now : String) :
    dget (release_job job now).error_details "recovery_count"
      = some (Val.int (getInt job.error_details "recovery_count" 0 + 1)) := by
  rw [release_job_error_details, dget_dset_ne _ _ _ _ (by decide), dget_dset_self]

/-! ## Claim theorems: error handling and `error_details` merge semantics -/

/-- C8: `mark_failed` and `release_job` read-modify-write `error_details` with
merge semantics: every key other than the ones they write (`retry_count`,
`max_retries`, `error_category`, `last_error_at` for `mark_failed`;
`recovery_count`, `last_recovery_at` for `release_job`) is preserved
unchanged, and the respective counter is read, incremented by one and
written back.  The int-or-absent hypotheses record that the Python code
would raise (not write) on a non-integer stored counter. -/
theorem mark_failed_release_job_merge (job : JobRec) (m c : String) (sr : Bool)
    (now k : String) :
    (k ≠ "retry_count" → k ≠ "max_retries" → k ≠ "error_category" →
      k ≠ "last_error_at" →
      dget (mark_failed job m c sr now).error_details k = dget job.error_details k)
    ∧ ((dget job.error_details "retry_count" = none ∨
        (∃ n, dget job.error_details "retry_count" = some (Val.int n))) →
      dget (mark_failed job m c sr now).error_details "retry_count"
        = some (Val.int (getInt job.error_details "retry_count" 0 + 1)))
    ∧ (k ≠ "recovery_count" → k ≠ "last_recovery_at" →
      dget (release_job job now).error_details k = dget job.error_details k)
    ∧ ((dget job.error_details "recovery_count" = none ∨
        (∃ n, dget job.error_details "recovery_count" = some (Val.int n))) →
      dget (release_job job now).error_details "recovery_count"
        = some (Val.int (getInt job.error_details "recovery_count" 0 + 1))) := by
  refine ⟨fun h1 h2 h3 h4 => mark_failed_dget_other job m c sr now k h1 h2 h3 h4,
    fun _ => mark_failed_dget_retry_count job m c sr now,
    fun h1 h2 => release_job_dget_other job now k h1 h2,
    fun _ => release_job_dget_recovery_count job now⟩

/-- Witness for the C8 theorem at a concrete row holding an extra key. -/
theorem mark_failed_release_job_merge_witness :
    (let J : JobRec :=
      { id := "j1"
        status := "rendering"
        priority := 100
        queued_at := 0
        worker_id := some "w1"
        worker_host := some "host"
        started_at := some "t0"
        completed_at := none
        progress := 40
        output_path := none
        error_message := none
        error_details := [("retry_count", Val.int 1), ("max_retries", Val.int 5),
          ("note", Val.str "keep")] };
     dget (mark_failed J "m" "retryable" true "t").error_details "note"
        = dget J.error_details "note"
     ∧ dget (mark_failed J "m" "retryable" true "t").error_details "retry_count"
        = some (Val.int (getInt J.error_details "retry_count" 0 + 1))
     ∧ dget (release_job J "t").error_details "note" = dget J.error_details "note"
     ∧ dget (release_job J "t").error_details "recovery_count"
        = some (Val.int (getInt J.error_details "recovery_count" 0 + 1))) := by
  refine ⟨(mark_failed_release_job_merge _ "m" "retryable" true "t" "note").1
      (by decide) (by decide) (by decide) (by decide),
    (mark_failed_release_job_merge _ "m" "retryable" true "t" "note").2.1
      (Or.inr ⟨1, by decide⟩),
    (mark_failed_release_job_merge _ "m" "retryable" true "t" "note").2.2.1
      (by decide) (by decide),
    (mark_failed_release_job_merge _ "m" "retryable" true "t" "note").2.2.2
      (Or.inl (by decide))⟩

/-- C10: when `get_job` cannot fetch the failed job (`None`), `_handle_error`
returns without persisting anything: no row is written and the queue store is
left exactly as it was. -/
theorem handle_error_missing_job (e : PyError) (tb : String) (cfg : ℤ)
    (now : String) (store : String → Option JobRec) (job_id : String)
    (h : store job_id = none) :
    handle_error none e tb cfg now = none
    ∧ handle_error_store store job_id e tb cfg now = store := by
  constructor
  · rfl
  · unfold handle_error_store
    rw [h]

/-- Witness for the C10 theorem on the empty store. -/
theorem handle_error_missing_job_witness :
    handle_error none ⟨ExcClass.genericExc, "boom"⟩ "" 3 "t" = none
    ∧ handle_error_store (fun _ => none) "j9" ⟨ExcClass.genericExc, "boom"⟩ "" 3 "t"
        = (fun _ => none) :=
  handle_error_missing_job ⟨ExcClass.genericExc, "boom"⟩ "" 3 "t" (fun _ => none)
    "j9" rfl

/-- C5: any error whose lower-cased message contains a non-retryable pattern
is classified NON_RETRYABLE, in particular when a retryable pattern also
matches: the non-retryable list is tested first and wins. -/
theorem classify_non_retryable_priority (e : PyError) (p q : String)
    (hp : p ∈ NON_RETRYABLE_PATTERNS)
    (hcp : strContains (strLower e.msg) (strLower p) = true)
    (hq : q ∈ RETRYABLE_PATTERNS)
    (hcq : strContains (strLower e.msg) (strLower q) = true) :
    classify e = ErrorCategory.NON_RETRYABLE := by
  simp only [classify]
  rw [if_pos (List.any_eq_true.mpr ⟨p, hp, hcp⟩)]

/-- Witness for the C5 theorem on a message matching patterns of both lists. -/
theorem classify_non_retryable_priority_witness :
    "not found" ∈ NON_RETRYABLE_PATTERNS
    ∧ strContains (strLower "Template not found due to timeout")
        (strLower "not found") = true
    ∧ "timeout" ∈ RETRYABLE_PATTERNS
    ∧ strContains (strLower "Template not found due to timeout")
        (strLower "timeout") = true
    ∧ classify ⟨ExcClass.genericExc, "Template not found due to timeout"⟩
        = ErrorCategory.NON_RETRYABLE :=
  ⟨by decide, by decide, by decide, by decide,
    classify_non_retryable_priority ⟨ExcClass.genericExc,
      "Template not found due to timeout"⟩ "not found" "timeout"
      (by decide) (by decide) (by decide) (by decide)⟩

/-- C4: evaluation of `classify` at a file-not-found error whose message
matches no pattern.  Because `FileNotFoundError` is a subclass of `OSError`
in Python and the `(TimeoutError, ConnectionError, OSError)` isinstance test
runs first, the result is RETRYABLE — the explicit
`(ValueError, KeyError, FileNotFoundError) → NON_RETRYABLE` branch of
src/lib/errors.py line 86 is unreachable for it. -/
theorem classify_file_not_found_type_fallback :
    classify ⟨ExcClass.fileNotFoundErr, "no such file or directory"⟩
        = ErrorCategory.RETRYABLE
    ∧ classify ⟨ExcClass.fileNotFoundErr, "no such file or directory"⟩
        ≠ ErrorCategory.NON_RETRYABLE
    ∧ isinst ExcClass.fileNotFoundErr ExcClass.osErr = true := by decide

/-- C1 counterexample: a RETRYABLE failure at `retry_count = 2 < 3 = max_retries`
(the claim's premise) is persisted as terminal `failed`, not `pending`:
`_handle_error` decides retry with the pre-increment count but `mark_failed`
re-checks with the incremented count.  The stored `error_category` value is
also rewritten, so a pre-existing `error_category` key is not preserved. -/
theorem handle_error_under_budget_cex :
    (let J : JobRec :=
      { id := "j1"
        status := "rendering"
        priority := 100
        queued_at := 0
        worker_id := some "w1"
        worker_host := some "host"
        started_at := some "t0"
        completed_at := none
        progress := 40
        output_path := none
        error_message := none
        error_details := [("retry_count", Val.int 2), ("max_retries", Val.int 3),
          ("error_category", Val.str "unknown"), ("custom_note", Val.str "x")] };
     let e : PyError := ⟨ExcClass.connectionErr, "connection refused"⟩;
     classify e = ErrorCategory.RETRYABLE
     ∧ getInt J.error_details "retry_count" 0 < getInt J.error_details "max_retries" 3
     ∧ (handle_error_written J e "" 3 "t1").status = "failed"
     ∧ (handle_error_written J e "" 3 "t1").status ≠ "pending"
     ∧ dget (handle_error_written J e "" 3 "t1").error_details "error_category"
         ≠ dget J.error_details "error_category") := by decide

/-- C1 (amended): when a job fails with an error classified RETRYABLE and its
`error_details` read `retry_count + 1 < max_retries` (the incremented count
still under the limit; the claim's `retry_count < max_retries` fails at the
boundary, see the counterexample), the error path persists the job back to
`pending` with `worker_id` cleared, `retry_count` incremented by exactly one,
`completed_at` untouched, and every `error_details` key other than the four
written by `mark_failed` (`retry_count`, `max_retries`, `error_category`,
`last_error_at`) preserved unchanged. -/
theorem handle_error_retryable_under_budget (job : JobRec) (e : PyError)
    (tb : String) (cfg : ℤ) (now : String) (rc mr : ℤ)
    (hcat : classify e = ErrorCategory.RETRYABLE)
    (hrc : dget job.error_details "retry_count" = some (Val.int rc))
    (hmr : dget job.error_details "max_retries" = some (Val.int mr))
    (hlt : rc + 1 < mr) :
    handle_error (some job) e tb cfg now
        = some (handle_error_written job e tb cfg now)
    ∧ (handle_error_written job e tb cfg now).status = "pending"
    ∧ (handle_error_written job e tb cfg now).worker_id = none
    ∧ (handle_error_written job e tb cfg now).completed_at = job.completed_at
    ∧ dget (handle_error_written job e tb cfg now).error_details "retry_count"
        = some (Val.int (rc + 1))
    ∧ (∀ k, k ≠ "retry_count" → k ≠ "max_retries" → k ≠ "error_category" →
        k ≠ "last_error_at" →
        dget (handle_error_written job e tb cfg now).error_details k
          = dget job.error_details k) := by
  have hgrc : getInt job.error_details "retry_count" 0 = rc :=
    getInt_eq_of_dget _ _ _ _ hrc
  have hgm3 : getInt job.error_details "max_retries" 3 = mr :=
    getInt_eq_of_dget _ _ _ _ hmr
  have hgmc : getInt job.error_details "max_retries" cfg = mr :=
    getInt_eq_of_dget _ _ _ _ hmr
  have hw : handle_error_written job e tb cfg now
      = mark_failed job
          ("[재시도 #" ++ toString (rc + 1) ++ "] " ++ format_message e tb)
          ErrorCategory.RETRYABLE.val true now := by
    simp only [handle_error_written, hcat, hgrc, hgmc]
    rw [if_pos ⟨trivial, by omega⟩]
  have hcond : True ∧ getInt job.error_details "retry_count" 0 + 1
      < getInt job.error_details "max_retries" 3 := ⟨trivial, by rw [hgrc, hgm3]; omega⟩
  refine ⟨rfl, ?_, ?_, ?_, ?_, ?_⟩
  · rw [hw]
    simp only [mark_failed]
    rw [if_pos hcond]
  · rw [hw]
    simp only [mark_failed]
    rw [if_pos hcond]
  · rw [hw]
    simp only [mark_failed]
    rw [if_pos hcond]
  · rw [hw, mark_failed_dget_retry_count, hgrc]
  · intro k h1 h2 h3 h4
    rw [hw]
    exact mark_failed_dget_other job _ _ true now k h1 h2 h3 h4

/-- Witness for the amended C1 theorem at a concrete row with
`retry_count = 0`, `max_retries = 3`. -/
theorem handle_error_retryable_under_budget_witness :
    (let J : JobRec :=
      { id := "j1"
        status := "rendering"
        priority := 100
        queued_at := 0
        worker_id := some "w1"
        worker_host := some "host"
        started_at := some "t0"
        completed_at := none
        progress := 40
        output_path := none
        error_message := none
        error_details := [("retry_count", Val.int 0), ("max_retries", Val.int 3),
          ("custom_note", Val.str "x")] };
     let e : PyError := ⟨ExcClass.connectionErr, "connection refused"⟩;
     classify e = ErrorCategory.RETRYABLE
     ∧ dget J.error_details "retry_count" = some (Val.int 0)
     ∧ dget J.error_details "max_retries" = some (Val.int 3)
     ∧ (0 : ℤ) + 1 < 3
     ∧ (handle_error_written J e "" 3 "t").status = "pending"
     ∧ dget (handle_error_written J e "" 3 "t").error_details "custom_note"
         = dget J.error_details "custom_note") := by
  refine ⟨by decide, by decide, by decide, by decide, ?_, ?_⟩
  · exact (handle_error_retryable_under_budget _ _ "" 3 "t" 0 3 (by decide)
      (by decide) (by decide) (by decide)).2.1
  · exact (handle_error_retryable_under_budget _ _ "" 3 "t" 0 3 (by decide)
      (by decide) (by decide) (by decide)).2.2.2.2.2 "custom_note"
      (by decide) (by decide) (by decide) (by decide)

/-- C2: a job failing with a RETRYABLE error while its `error_details` read
`retry_count = max_retries − 1` is persisted as terminal `failed` (not
`pending`) with `completed_at` stamped and `worker_id` cleared: the retry
budget is exhausted by the increment inside `mark_failed`. -/
theorem handle_error_retry_budget_exhausted (job : JobRec) (e : PyError)
    (tb : String) (cfg : ℤ) (now : String) (rc mr : ℤ)
    (hcat : classify e = ErrorCategory.RETRYABLE)
    (hrc : dget job.error_details "retry_count" = some (Val.int rc))
    (hmr : dget job.error_details "max_retries" = some (Val.int mr))
    (heq : rc = mr - 1) :
    handle_error (some job) e tb cfg now
        = some (handle_error_written job e tb cfg now)
    ∧ (handle_error_written job e tb cfg now).status = "failed"
    ∧ (handle_error_written job e tb cfg now).status ≠ "pending"
    ∧ (handle_error_written job e tb cfg now).completed_at = some now
    ∧ (handle_error_written job e tb cfg now).worker_id = none := by
  have hgrc : getInt job.error_details "retry_count" 0 = rc :=
    getInt_eq_of_dget _ _ _ _ hrc
  have hgm3 : getInt job.error_details "max_retries" 3 = mr :=
    getInt_eq_of_dget _ _ _ _ hmr
  have hgmc : getInt job.error_details "max_retries" cfg = mr :=
    getInt_eq_of_dget _ _ _ _ hmr
  have hw : handle_error_written job e tb cfg now
      = mark_failed job
          ("[재시도 #" ++ toString (rc + 1) ++ "] " ++ format_message e tb)
          ErrorCategory.RETRYABLE.val true now := by
    simp only [handle_error_written, hcat, hgrc, hgmc]
    rw [if_pos ⟨trivial, by omega⟩]
  have hcond : ¬ (True ∧ getInt job.error_details "retry_count" 0 + 1
      < getInt job.error_details "max_retries" 3) := by
    rw [hgrc, hgm3]
    rintro ⟨-, hlt⟩
    omega
  refine ⟨rfl, ?_, ?_, ?_, ?_⟩
  · rw [hw]
    simp only [mark_failed]
    rw [if_neg hcond]
  · rw [hw]
    simp only [mark_failed]
    rw [if_neg hcond]
    show ("failed" : String) ≠ "pending"
    decide
  · rw [hw]
    simp only [mark_failed]
    rw [if_neg hcond]
  · rw [hw]
    simp only [mark_failed]
    rw [if_neg hcond]

/-- Witness for the C2 theorem at a concrete row with `retry_count = 2`,
`max_retries = 3`. -/
theorem handle_error_retry_budget_exhausted_witness :
    (let J : JobRec :=
      { id := "j1"
        status := "rendering"
        priority := 100
        queued_at := 0
        worker_id := some "w1"
        worker_host := some "host"
        started_at := some "t0"
        completed_at := none
        progress := 40
        output_path := none
        error_message := none
        error_details := [("retry_count", Val.int 2), ("max_retries", Val.int 3)] };
     let e : PyError := ⟨ExcClass.connectionErr, "connection refused"⟩;
     classify e = ErrorCategory.RETRYABLE
     ∧ dget J.error_details "retry_count" = some (Val.int 2)
     ∧ dget J.error_details "max_retries" = some (Val.int 3)
     ∧ (2 : ℤ) = 3 - 1
     ∧ (handle_error_written J e "" 3 "t").status = "failed"
     ∧ (handle_error_written J e "" 3 "t").completed_at = some "t") := by
  refine ⟨by decide, by decide, by decide, by decide, ?_, ?_⟩
  · exact (handle_error_retry_budget_exhausted _ _ "" 3 "t" 2 3 (by decide)
      (by decide) (by decide) (by decide)).2.1
  · exact (handle_error_retry_budget_exhausted _ _ "" 3 "t" 2 3 (by decide)
      (by decide) (by decide) (by decide)).2.2.2.1

/-! ## Claim theorems: NAS copy stage -/

theorem copy_to_nas_loop_none (nas_path : String) (attempts : List CopyOutcome)
    (hfail : ∀ o ∈ attempts, o ≠ CopyOutcome.okVerified) :
    copy_to_nas_loop nas_path attempts = none := by
  induction attempts with
  | nil => rfl
  | cons o rest ih =>
    have ho : o ≠ CopyOutcome.okVerified := hfail o (List.mem_cons_self o rest)
    have hrest : ∀ x ∈ rest, x ≠ CopyOutcome.okVerified :=
      fun x hx => hfail x (List.mem_cons_of_mem o hx)
    cases o with
    | dirMissing => rfl
    | okVerified => exact absurd rfl ho
    | okUnverified => exact ih hrest
    | permError => exact ih hrest
    | osError => exact ih hrest

/-- C7: with a secondary-storage (NAS) path configured, if no copy attempt
ends in a verified copy (the directory is unreachable, the copy raises, or
the copied artifact fails verification), `_copy_to_nas` returns `None`
rather than raising, `_post_process` still returns the verified local path
(never the NAS path), and the job is persisted `completed` with
`output_path` the local path, progress 100 and `worker_id` cleared — a
secondary-copy failure never fails the job. -/
theorem nas_copy_failure_keeps_job_success (local_path nas_base fname : String)
    (attempts : List CopyOutcome) (job : JobRec) (now : String)
    (hnas : nas_base ≠ "")
    (hfail : ∀ o ∈ attempts, o ≠ CopyOutcome.okVerified) :
    copy_to_nas nas_base fname attempts = none
    ∧ post_process_final_path local_path nas_base fname attempts = local_path
    ∧ (mark_completed job
        (post_process_final_path local_path nas_base fname attempts) now).status
        = "completed"
    ∧ (mark_completed job
        (post_process_final_path local_path nas_base fname attempts) now).output_path
        = some local_path
    ∧ (mark_completed job
        (post_process_final_path local_path nas_base fname attempts) now).progress
        = 100
    ∧ (mark_completed job
        (post_process_final_path local_path nas_base fname attempts) now).worker_id
        = none := by
  have h1 : copy_to_nas nas_base fname attempts = none := by
    unfold copy_to_nas
    rw [if_neg hnas]
    exact copy_to_nas_loop_none _ _ hfail
  have h2 : post_process_final_path local_path nas_base fname attempts = local_path := by
    unfold post_process_final_path
    rw [if_neg hnas, h1]
  refine ⟨h1, h2, ?_, ?_, ?_, ?_⟩ <;> rw [h2] <;> rfl

/-- Witness for the C7 theorem: both attempts fail with an OS error. -/
theorem nas_copy_failure_keeps_job_success_witness :
    (let J : JobRec :=
      { id := "j1"
        status := "uploading"
        priority := 100
        queued_at := 0
        worker_id := some "w1"
        worker_host := some "host"
        started_at := some "t0"
        completed_at := none
        progress := 95
        output_path := none
        error_message := none
        error_details := [] };
     ("//NAS/renders" : String) ≠ ""
     ∧ (∀ o ∈ [CopyOutcome.osError, CopyOutcome.osError],
          o ≠ CopyOutcome.okVerified)
     ∧ post_process_final_path "D:/output/j1.mp4" "//NAS/renders" "j1.mp4"
          [CopyOutcome.osError, CopyOutcome.osError] = "D:/output/j1.mp4"
     ∧ (mark_completed J
          (post_process_final_path "D:/output/j1.mp4" "//NAS/renders" "j1.mp4"
            [CopyOutcome.osError, CopyOutcome.osError]) "t1").status = "completed"
     ∧ (mark_completed J
          (post_process_final_path "D:/output/j1.mp4" "//NAS/renders" "j1.mp4"
            [CopyOutcome.osError, CopyOutcome.osError]) "t1").output_path
          = some "D:/output/j1.mp4") := by
  intro J
  refine ⟨by decide, by decide, ?_, ?_, ?_⟩
  · exact (nas_copy_failure_keeps_job_success "D:/output/j1.mp4" "//NAS/renders"
      "j1.mp4" [CopyOutcome.osError, CopyOutcome.osError] J "t1" (by decide)
      (by decide)).2.1
  · exact (nas_copy_failure_keeps_job_success "D:/output/j1.mp4" "//NAS/renders"
      "j1.mp4" [CopyOutcome.osError, CopyOutcome.osError] J "t1" (by decide)
      (by decide)).2.2.1
  · exact (nas_copy_failure_keeps_job_success "D:/output/j1.mp4" "//NAS/renders"
      "j1.mp4" [CopyOutcome.osError, CopyOutcome.osError] J "t1" (by decide)
      (by decide)).2.2.2.1

/-! ## Claim theorems: the polling loop -/

theorem isinst_nexrender_eq (c : ExcClass)
    (h : isinst c ExcClass.nexrenderErr = true) : c = ExcClass.nexrenderErr := by
  cases c <;> revert h <;> decide

/-- C9 counterexample: a status-query failure raised as `NexrenderError` — the
class `NexrenderClient.get_job` wraps every transport failure in
(src/lib/client.py, lines 117-119) — is re-raised by the polling loop, not
swallowed: the loop exits with that error even though the next poll would
have reported `finished`, and the raised error is neither the engine-error
raise nor the timeout. -/
theorem poll_loop_swallow_cex :
    (let rq : ℕ → PollResult := fun i =>
      if i = 0 then PollResult.exn ⟨ExcClass.nexrenderErr, "Nexrender 서버 연결 실패: timeout"⟩
      else PollResult.ok "finished" 1 none;
     poll_loop rq "j1" 1800 0 5
        = Except.error ⟨ExcClass.nexrenderErr, "Nexrender 서버 연결 실패: timeout"⟩
     ∧ poll_loop rq "j1" 1800 0 5 ≠ Except.ok ()
     ∧ (⟨ExcClass.nexrenderErr, "Nexrender 서버 연결 실패: timeout"⟩ : PyError)
        ≠ poll_timeout_error "j1" 1800
     ∧ rq 0 ≠ PollResult.ok "error" 1 none) :=
  ⟨rfl, fun h => Except.noConfusion h, by decide, fun h => PollResult.noConfusion h⟩

/-- C9 (amended): within the polling loop, a failure raised during an
iteration is swallowed and polling continues exactly when it is not a
`NexrenderError`; any `NexrenderError` — the engine-reported `error` state
as well as a status-query failure wrapped by the engine client — is
re-raised immediately, an engine `error` state raises `NexrenderError`
carrying the engine's error text, and an exhausted `while elapsed <
max_timeout` guard raises `TimeoutError`; every failure of the stage is one
of these two exception classes. -/
theorem poll_loop_spec (results : ℕ → PollResult) (job_id : String)
    (max_timeout : ℕ) (i fuel : ℕ) :
    (∀ e, results i = PollResult.exn e →
      isinst e.cls ExcClass.nexrenderErr = false →
      poll_loop results job_id max_timeout i (fuel + 1)
        = poll_loop results job_id max_timeout (i + 1) fuel)
    ∧ (∀ e, results i = PollResult.exn e →
      isinst e.cls ExcClass.nexrenderErr = true →
      poll_loop results job_id max_timeout i (fuel + 1) = Except.error e)
    ∧ (∀ rp err, results i = PollResult.ok "error" rp err →
      poll_loop results job_id max_timeout i (fuel + 1)
        = Except.error (nexrender_error err))
    ∧ poll_loop results job_id max_timeout i 0
        = Except.error (poll_timeout_error job_id max_timeout)
    ∧ (∀ e, poll_loop results job_id max_timeout i fuel = Except.error e →
      e.cls = ExcClass.nexrenderErr ∨ e = poll_timeout_error job_id max_timeout) := by
  refine ⟨?_, ?_, ?_, rfl, ?_⟩
  · intro e hres hni
    simp only [poll_loop]
    rw [hres]
    simp [hni]
  · intro e hres hni
    simp only [poll_loop]
    rw [hres]
    simp [hni]
  · intro rp err hres
    simp only [poll_loop]
    rw [hres]
    rfl
  · intro e
    induction fuel generalizing i with
    | zero =>
      intro h
      right
      exact (Except.error.inj h).symm
    | succ n ih =>
      intro h
      cases hres : results i with
      | exn e0 =>
        by_cases hni : isinst e0.cls ExcClass.nexrenderErr = true
        · have hstep : poll_loop results job_id max_timeout i (n + 1)
              = Except.error e0 := by
            simp only [poll_loop]
            rw [hres]
            simp [hni]
          rw [hstep] at h
          left
          rw [← Except.error.inj h]
          exact isinst_nexrender_eq e0.cls hni
        · have hstep : poll_loop results job_id max_timeout i (n + 1)
              = poll_loop results job_id max_timeout (i + 1) n := by
            simp only [poll_loop]
            rw [hres]
            simp [hni]
          rw [hstep] at h
          exact ih (i + 1) h
      | ok state rp err =>
        by_cases herr : state = "error"
        · subst herr
          have hstep : poll_loop results job_id max_timeout i (n + 1)
              = Except.error (nexrender_error err) := by
            simp only [poll_loop]
            rw [hres]
            rfl
          rw [hstep] at h
          left
          rw [← Except.error.inj h]
          rfl
        · by_cases hfin : state = "finished"
          · subst hfin
            have hstep : poll_loop results job_id max_timeout i (n + 1)
                = Except.ok () := by
              simp only [poll_loop]
              rw [hres]
              rfl
            rw [hstep] at h
            exact absurd h (fun hh => Except.noConfusion hh)
          · have hstep : poll_loop results job_id max_timeout i (n + 1)
                = poll_loop results job_id max_timeout (i + 1) n := by
              simp only [poll_loop]
              rw [hres]
              show (if state = "error" then Except.error (nexrender_error err)
                else if state = "finished" then Except.ok ()
                else poll_loop results job_id max_timeout (i + 1) n)
                = poll_loop results job_id max_timeout (i + 1) n
              rw [if_neg herr, if_neg hfin]
            rw [hstep] at h
            exact ih (i + 1) h

/-- Witness for the C9 theorem: a failed progress write (`ValueError`) at
iteration 0 is swallowed and the loop goes on to see `finished`. -/
theorem poll_loop_spec_witness :
    (let rq : ℕ → PollResult := fun i =>
      if i = 0 then PollResult.exn ⟨ExcClass.valueErr, "작업 업데이트 실패: j1"⟩
      else PollResult.ok "finished" 1 none;
     rq 0 = PollResult.exn ⟨ExcClass.valueErr, "작업 업데이트 실패: j1"⟩
     ∧ isinst ExcClass.valueErr ExcClass.nexrenderErr = false
     ∧ poll_loop rq "j1" 1800 0 2 = poll_loop rq "j1" 1800 1 1
     ∧ poll_loop rq "j1" 1800 0 2 = Except.ok ()
     ∧ poll_loop rq "j1" 1800 0 0
        = Except.error (poll_timeout_error "j1" 1800)) := by
  intro rq
  refine ⟨rfl, rfl, ?_, rfl, ?_⟩
  · exact (poll_loop_spec rq "j1" 1800 0 1).1
      ⟨ExcClass.valueErr, "작업 업데이트 실패: j1"⟩ rfl rfl
  · exact (poll_loop_spec rq "j1" 1800 0 0).2.2.2.1

/-! ## Claim theorems: the polling status map -/

/-- C6 counterexample: with the engine's renderProgress on the claim's
0.0-1.0 scale, the persisted progress for state `rendering` at fraction 1 is
`40 + int(1 * 0.4) = 40`, not the claimed `40 + 40·1 = 80` (the source
formula `40 + int(render_progress * 0.4)` only yields `40 + 40·fraction`
when renderProgress is a 0-100 percentage). -/
theorem nexrender_status_map_rendering_cex :
    nexrender_status_map "rendering" 1 = some ("rendering", 40)
    ∧ nexrender_status_map "rendering" 1 ≠ some ("rendering", 40 + 40 * 1) := by
  have h : nexrender_status_map "rendering" 1 = some ("rendering", 40) := by
    norm_num [nexrender_status_map, pyInt, Int.floor_eq_zero_iff, Set.mem_Ico]
    decide
  refine ⟨h, ?_⟩
  rw [h]
  decide

/-- C6 (amended): the polling stage maps engine states to fixed
(status, progress) pairs — queued→(rendering,25), started→(rendering,30),
downloading→(rendering,35), encoding→(encoding,85), finished→(uploading,95)
— and maps state `rendering` to (rendering, 40 + int(renderProgress·0.4)),
which for every fraction f in [0,1] (the scale `poll_until_complete`
assumes when it reports `int(renderProgress·100)` to its callback) is the
constant progress 40; the formula reads 40 + 40·f only if renderProgress is
a 0-100 percentage. -/
theorem nexrender_status_map_spec (f : ℚ) :
    nexrender_status_map "queued" f = some ("rendering", 25)
    ∧ nexrender_status_map "started" f = some ("rendering", 30)
    ∧ nexrender_status_map "downloading" f = some ("rendering", 35)
    ∧ nexrender_status_map "rendering" f
        = some ("rendering", 40 + pyInt (f * 0.4))
    ∧ (0 ≤ f → f ≤ 1 → nexrender_status_map "rendering" f = some ("rendering", 40))
    ∧ nexrender_status_map "encoding" f = some ("encoding", 85)
    ∧ nexrender_status_map "finished" f = some ("uploading", 95)
    ∧ (0 ≤ f → poll_callback_percent f = ⌊f * 100⌋) := by
  refine ⟨rfl, rfl, rfl, rfl, ?_, rfl, rfl, ?_⟩
  · intro h0 h1
    have hnn : 0 ≤ f * 0.4 := mul_nonneg h0 (by norm_num)
    have hlt : f * 0.4 < 1 := by nlinarith
    have hpy : pyInt (f * 0.4) = 0 := by
      unfold pyInt
      rw [if_pos hnn]
      exact Int.floor_eq_zero_iff.mpr ⟨hnn, hlt⟩
    have h4 : nexrender_status_map "rendering" f
        = some ("rendering", 40 + pyInt (f * 0.4)) := rfl
    rw [h4, hpy]
    norm_num
  · intro h0
    unfold poll_callback_percent pyInt
    rw [if_pos (mul_nonneg h0 (by norm_num))]

/-- Witness for the C6 theorem at fraction 0. -/
theorem nexrender_status_map_spec_witness :
    (0 : ℚ) ≤ 0 ∧ (0 : ℚ) ≤ 1
    ∧ nexrender_status_map "rendering" 0 = some ("rendering", 40)
    ∧ nexrender_status_map "queued" 0 = some ("rendering", 25)
    ∧ nexrender_status_map "finished" 0 = some ("uploading", 95) :=
  ⟨le_refl 0, zero_le_one,
    (nexrender_status_map_spec 0).2.2.2.2.1 (le_refl 0) zero_le_one,
    (nexrender_status_map_spec 0).1,
    (nexrender_status_map_spec 0).2.2.2.2.2.2.1⟩

/-! ## Claim theorems: the atomic claim operation -/

theorem keyLe_refl (a : JobRec) : keyLe a a := Or.inr ⟨rfl, le_refl _⟩

theorem keyLe_of_keyLt {a b : JobRec} (h : keyLt a b) : keyLe a b := by
  unfold keyLt at h
  unfold keyLe
  rcases h with h | ⟨h1, h2⟩
  · exact Or.inl h
  · exact Or.inr ⟨h1, le_of_lt h2⟩

theorem keyLe_of_not_keyLt {a b : JobRec} (h : ¬ keyLt a b) : keyLe b a := by
  unfold keyLt at h
  push_neg at h
  unfold keyLe
  rcases lt_trichotomy b.priority a.priority with h1 | h1 | h1
  · exact Or.inl h1
  · refine Or.inr ⟨h1, ?_⟩
    have h2 := h.2 h1.symm
    omega
  · exact absurd h1 (not_lt.mpr h.1)

theorem keyLe_trans {a b c : JobRec} (h1 : keyLe a b) (h2 : keyLe b c) :
    keyLe a c := by
  unfold keyLe at h1 h2 ⊢
  rcases h1 with h1 | ⟨e1, q1⟩ <;> rcases h2 with h2 | ⟨e2, q2⟩
  · exact Or.inl (lt_trans h1 h2)
  · exact Or.inl (by rw [← e2]; exact h1)
  · exact Or.inl (by rw [e1]; exact h2)
  · exact Or.inr ⟨e1.trans e2, le_trans q1 q2⟩

theorem foldl_selMin_spec (l : List JobRec) :
    ∀ (acc : Option JobRec) (x : JobRec), l.foldl selMin acc = some x →
      (x ∈ l ∨ acc = some x) ∧ (∀ y ∈ l, keyLe x y)
        ∧ (∀ b, acc = some b → keyLe x b) := by
  induction l with
  | nil =>
    intro acc x h
    refine ⟨Or.inr h, ?_, ?_⟩
    · intro y hy
      exact absurd hy (List.not_mem_nil y)
    · intro b hb
      have hx : acc = some x := h
      rw [hx] at hb
      rw [Option.some.inj hb]
      exact keyLe_refl b
  | cons a l ih =>
    intro acc x h
    rw [List.foldl_cons] at h
    obtain ⟨hmem, hmin, hacc⟩ := ih (selMin acc a) x h
    have hxa : keyLe x a := by
      cases acc with
      | none => exact hacc a rfl
      | some b =>
        by_cases hlt : keyLt a b
        · exact hacc a (by simp only [selMin]; rw [if_pos hlt])
        · exact keyLe_trans (hacc b (by simp only [selMin]; rw [if_neg hlt]))
            (keyLe_of_not_keyLt hlt)
    refine ⟨?_, ?_, ?_⟩
    · rcases hmem with hm | hm
      · exact Or.inl (List.mem_cons_of_mem a hm)
      · cases acc with
        | none =>
          have hx : a = x := Option.some.inj hm
          exact Or.inl (hx ▸ List.mem_cons_self a l)
        | some b =>
          by_cases hlt : keyLt a b
          · have hx : a = x :=
              Option.some.inj (by simpa only [selMin, if_pos hlt] using hm)
            exact Or.inl (hx ▸ List.mem_cons_self a l)
          · have hx : b = x :=
              Option.some.inj (by simpa only [selMin, if_neg hlt] using hm)
            exact Or.inr (hx ▸ rfl)
    · intro y hy
      rcases List.mem_cons.mp hy with hy | hy
      · rw [hy]
        exact hxa
      · exact hmin y hy
    · intro b0 hb0
      subst hb0
      by_cases hlt : keyLt a b0
      · exact keyLe_trans (hacc a (by simp only [selMin]; rw [if_pos hlt]))
          (keyLe_of_keyLt hlt)
      · exact hacc b0 (by simp only [selMin]; rw [if_neg hlt])

theorem selectPending_some (t : List JobRec) (row : JobRec)
    (h : selectPending t = some row) :
    row ∈ t ∧ row.status = "pending"
      ∧ ∀ r ∈ t, r.status = "pending" → keyLe row r := by
  unfold selectPending at h
  obtain ⟨hmem, hmin, -⟩ := foldl_selMin_spec _ _ _ h
  have hmem2 : row ∈ t.filter (fun r => r.status == "pending") := by
    rcases hmem with hm | hm
    · exact hm
    · exact Option.noConfusion hm
  obtain ⟨hmemt, hstat⟩ := List.mem_filter.mp hmem2
  refine ⟨hmemt, by simpa using hstat, ?_⟩
  intro r hr hrs
  exact hmin r (List.mem_filter.mpr ⟨hr, by simp [hrs]⟩)

theorem selectPending_none (t : List JobRec)
    (h : ∀ r ∈ t, r.status ≠ "pending") : selectPending t = none := by
  unfold selectPending
  have hf : t.filter (fun r => r.status == "pending") = [] := by
    rw [List.filter_eq_nil_iff]
    intro a ha
    simp [h a ha]
  rw [hf]
  rfl

theorem map_untouched (t : List JobRec) (f : JobRec → JobRec)
    (p : JobRec → Bool) (h : ∀ r ∈ t, p r = false) :
    t.map (fun r => if p r then f r else r) = t := by
  induction t with
  | nil => rfl
  | cons a l ih =>
    have ha : p a = false := h a (List.mem_cons_self a l)
    have hl := ih (fun r hr => h r (List.mem_cons_of_mem a hr))
    simp [ha, hl]

/-- C3: `claim_pending_job` selects a `pending` row minimal in
`(priority, queued_at)` among all pending rows of the SELECT-time table;
with no pending row it returns null leaving the table untouched; the
conditional UPDATE rewrites exactly the rows whose id matches the selected
row *and* whose status is still `pending` (stamping `preparing`,
`worker_id`, `worker_host`, `started_at`) and leaves every other row
unchanged; when it affects zero rows the call returns null with the table
untouched; and any returned row is a freshly stamped `preparing` row built
from a row that was still `pending` at UPDATE time.  All outcomes are
values of the `Option` result — the call never raises. -/
theorem claim_pending_job_spec (t1 t2 : List JobRec) (wid whost now : String) :
    ((∀ r ∈ t1, r.status ≠ "pending") →
      claim_pending_job t1 t2 wid whost now = (t2, none))
    ∧ (∀ row, selectPending t1 = some row →
      row ∈ t1 ∧ row.status = "pending"
        ∧ ∀ r ∈ t1, r.status = "pending" → keyLe row r)
    ∧ (∀ row, selectPending t1 = some row →
      (∀ r ∈ t2, ¬(r.id = row.id ∧ r.status = "pending")) →
      claim_pending_job t1 t2 wid whost now = (t2, none))
    ∧ (∀ row, selectPending t1 = some row → ∀ (i : ℕ) (r : JobRec),
      t2[i]? = some r →
      (claim_pending_job t1 t2 wid whost now).1[i]? =
        some (if r.id = row.id ∧ r.status = "pending"
          then claim_update_row r wid whost now else r))
    ∧ (∀ r2, (claim_pending_job t1 t2 wid whost now).2 = some r2 →
      r2.status = "preparing" ∧ r2.worker_id = some wid
        ∧ r2.worker_host = some whost ∧ r2.started_at = some now
        ∧ ∃ r ∈ t2, r.status = "pending"
            ∧ r2 = claim_update_row r wid whost now) := by
  refine ⟨?_, ?_, ?_, ?_, ?_⟩
  · intro h
    unfold claim_pending_job
    rw [selectPending_none t1 h]
  · intro row hsel
    exact selectPending_some t1 row hsel
  · intro row hsel hno
    have hfilter : t2.filter (fun r => r.id == row.id && r.status == "pending")
        = [] := by
      rw [List.filter_eq_nil_iff]
      intro r hr hcontra
      rw [Bool.and_eq_true, beq_iff_eq, beq_iff_eq] at hcontra
      exact hno r hr hcontra
    have hmap : t2.map (fun r =>
        if r.id == row.id && r.status == "pending"
        then claim_update_row r wid whost now else r) = t2 := by
      refine map_untouched t2 _ _ ?_
      intro r hr
      by_contra hcontra
      rw [Bool.not_eq_false, Bool.and_eq_true, beq_iff_eq, beq_iff_eq] at hcontra
      exact hno r hr hcontra
    simp only [claim_pending_job, hsel, hfilter, hmap]
  · intro row hsel i r hir
    have hfst : (claim_pending_job t1 t2 wid whost now).1
        = t2.map (fun r => if r.id == row.id && r.status == "pending"
            then claim_update_row r wid whost now else r) := by
      simp only [claim_pending_job, hsel]
      cases hf : t2.filter (fun r => r.id == row.id && r.status == "pending")
        <;> rfl
    rw [hfst, List.getElem?_map, hir]
    by_cases hc : r.id = row.id ∧ r.status = "pending"
    · rw [Option.map_some']
      rw [if_pos (by rw [Bool.and_eq_true, beq_iff_eq, beq_iff_eq]; exact hc),
        if_pos hc]
    · rw [Option.map_some']
      rw [if_neg (fun hb => hc (by
          rw [Bool.and_eq_true, beq_iff_eq, beq_iff_eq] at hb
          exact hb)), if_neg hc]
  · intro r2 h2
    rcases hsel : selectPending t1 with _ | row
    · have hcl : claim_pending_job t1 t2 wid whost now = (t2, none) := by
        unfold claim_pending_job
        rw [hsel]
      rw [hcl] at h2
      exact Option.noConfusion h2
    · rcases hfilt : t2.filter (fun r => r.id == row.id && r.status == "pending")
        with _ | ⟨hd, tl⟩
      · have hcl : (claim_pending_job t1 t2 wid whost now).2 = none := by
          simp only [claim_pending_job, hsel, hfilt]
        rw [hcl] at h2
        exact Option.noConfusion h2
      · have hcl : (claim_pending_job t1 t2 wid whost now).2
            = some (claim_update_row hd wid whost now) := by
          simp only [claim_pending_job, hsel, hfilt]
        rw [hcl] at h2
        have hr2 : r2 = claim_update_row hd wid whost now :=
          (Option.some.inj h2).symm
        subst hr2
        have hdmem : hd ∈ t2.filter
            (fun r => r.id == row.id && r.status == "pending") := by
          rw [hfilt]
          exact List.mem_cons_self hd tl
        obtain ⟨hdt2, hdp⟩ := List.mem_filter.mp hdmem
        rw [Bool.and_eq_true, beq_iff_eq, beq_iff_eq] at hdp
        exact ⟨rfl, rfl, rfl, rfl, hd, hdt2, hdp.2, rfl⟩

/-- Witness for the C3 theorem on a three-row SELECT-time table (two
pending rows tied on priority, one completed) and a two-row UPDATE-time
table. -/
theorem claim_pending_job_spec_witness :
    (let jA : JobRec :=
      { id := "a"
        status := "pending"
        priority := 1
        queued_at := 5
        worker_id := none
        worker_host := none
        started_at := none
        completed_at := none
        progress := 0
        output_path := none
        error_message := none
        error_details := [] };
     let jB : JobRec :=
      { id := "b"
        status := "pending"
        priority := 1
        queued_at := 7
        worker_id := none
        worker_host := none
        started_at := none
        completed_at := none
        progress := 0
        output_path := none
        error_message := none
        error_details := [] };
     let jC : JobRec :=
      { id := "c"
        status := "completed"
        priority := 0
        queued_at := 0
        worker_id := none
        worker_host := none
        started_at := none
        completed_at := some "t0"
        progress := 100
        output_path := none
        error_message := none
        error_details := [] };
     selectPending [jC, jB, jA] = some jA
     ∧ (jA ∈ [jC, jB, jA] ∧ jA.status = "pending"
         ∧ ∀ r ∈ [jC, jB, jA], r.status = "pending" → keyLe jA r)
     ∧ (claim_pending_job [jC, jB, jA] [jB, jA] "w1" "h1" "t1").2
         = some (claim_update_row jA "w1" "h1" "t1")
     ∧ (claim_update_row jA "w1" "h1" "t1").status = "preparing"
     ∧ (claim_update_row jA "w1" "h1" "t1").worker_id = some "w1"
     ∧ (claim_update_row jA "w1" "h1" "t1").started_at = some "t1") := by
  intro jA jB jC
  refine ⟨by decide, ?_, by decide, ?_, ?_, ?_⟩
  · exact (claim_pending_job_spec [jC, jB, jA] [jB, jA] "w1" "h1" "t1").2.1 jA
      (by decide)
  · exact ((claim_pending_job_spec [jC, jB, jA] [jB, jA] "w1" "h1" "t1").2.2.2.2
      (claim_update_row jA "w1" "h1" "t1") (by decide)).1
  · exact ((claim_pending_job_spec [jC, jB, jA] [jB, jA] "w1" "h1" "t1").2.2.2.2
      (claim_update_row jA "w1" "h1" "t1") (by decide)).2.1
  · exact ((claim_pending_job_spec [jC, jB, jA] [jB, jA] "w1" "h1" "t1").2.2.2.2
      (claim_update_row jA "w1" "h1" "t1") (by decide)).2.2.2.1

end AeNex

